import Mathlib

/-!
Verification of the STUN UDP port completion state machine
(talk/p2p/base/stunport.cc) and of the ICE role / credential logic
exercised by webrtc/p2p/base/transport_unittest.cc.

Socket addresses (talk_base::SocketAddress) are modelled as natural
numbers: the code only compares them for equality and keeps them in
ordered sets, so any type with decidable equality is faithful.
-/

namespace StunPort

/-- The two signals UDPPort::MaybeSetPortCompleteOrError can emit:
SignalPortComplete or SignalPortError. -/
inductive PortSignal
  | complete
  | error
deriving DecidableEq

/-- State of a cricket::UDPPort relevant to candidate gathering:
the configured STUN server set, the per-server success/failure record
sets, the readiness flag, whether the socket is shared, the socket's
local address, the candidates registered via AddAddress and the log of
emitted port signals. -/
structure UDPPort where
  server_addresses_ : Finset ℕ
  bind_request_succeeded_servers_ : Finset ℕ
  bind_request_failed_servers_ : Finset ℕ
  ready_ : Bool
  sharedSocket : Bool
  socketLocalAddress : ℕ
  candidates : List ℕ
  signals : List PortSignal
deriving DecidableEq

/-- servers_done_bind_request in UDPPort::MaybeSetPortCompleteOrError:
size of the failed-server set plus size of the succeeded-server set. -/
def doneCount (p : UDPPort) : ℕ :=
  p.bind_request_failed_servers_.card + p.bind_request_succeeded_servers_.card

/-- UDPPort::MaybeSetPortCompleteOrError (stunport.cc:413-436): returns
unchanged while ready_ is set or while the server set size differs from
the number of servers done; otherwise sets ready_ and emits exactly one
of SignalPortComplete / SignalPortError. -/
def MaybeSetPortCompleteOrError (p : UDPPort) : UDPPort :=
  if p.ready_ then p
  else if p.server_addresses_.card ≠ doneCount p then p
  else if p.server_addresses_ = ∅ ∨ 0 < p.bind_request_succeeded_servers_.card ∨
      p.sharedSocket then
    { p with ready_ := true, signals := p.signals ++ [PortSignal.complete] }
  else
    { p with ready_ := true, signals := p.signals ++ [PortSignal.error] }

/-- UDPPort::OnStunBindingRequestSucceeded (stunport.cc:383-401):
dedupe on the succeeded-server set, then insert; AddAddress a
server-reflexive candidate unless the socket is shared and the
reflected address equals the local socket address; then try the
completion gate. -/
def OnStunBindingRequestSucceeded (p : UDPPort)
    (stun_server_addr stun_reflected_addr : ℕ) : UDPPort :=
  if stun_server_addr ∈ p.bind_request_succeeded_servers_ then p
  else
    MaybeSetPortCompleteOrError
      (if ¬ p.sharedSocket ∨ stun_reflected_addr ≠ p.socketLocalAddress then
        { p with
            bind_request_succeeded_servers_ :=
              insert stun_server_addr p.bind_request_succeeded_servers_,
            candidates := p.candidates ++ [stun_reflected_addr] }
      else
        { p with
            bind_request_succeeded_servers_ :=
              insert stun_server_addr p.bind_request_succeeded_servers_ })

/-- UDPPort::OnStunBindingOrResolveRequestFailed (stunport.cc:403-411):
dedupe on the failed-server set, insert, then try the completion
gate. -/
def OnStunBindingOrResolveRequestFailed (p : UDPPort)
    (stun_server_addr : ℕ) : UDPPort :=
  if stun_server_addr ∈ p.bind_request_failed_servers_ then p
  else
    MaybeSetPortCompleteOrError
      { p with
          bind_request_failed_servers_ :=
            insert stun_server_addr p.bind_request_failed_servers_ }

/-- A per-server notification delivered to the port: a binding success
(carrying the reflexive address) or a binding/resolve failure. -/
inductive StunEvent
  | succeeded (server reflected : ℕ)
  | bindFailed (server : ℕ)
deriving DecidableEq

/-- Dispatch one notification to the corresponding handler. -/
def applyEvent (p : UDPPort) : StunEvent → UDPPort
  | .succeeded s r => OnStunBindingRequestSucceeded p s r
  | .bindFailed s => OnStunBindingOrResolveRequestFailed p s

/-- Process a list of notifications in order. -/
def runEvents (p : UDPPort) (es : List StunEvent) : UDPPort :=
  es.foldl applyEvent p

/-- Port state right after construction and OnLocalAddressReady's
AddAddress of the host candidate: empty record sets, not ready, no
signals. -/
def initPort (S : Finset ℕ) (shared : Bool) (localAddr : ℕ) : UDPPort :=
  { server_addresses_ := S
    bind_request_succeeded_servers_ := ∅
    bind_request_failed_servers_ := ∅
    ready_ := false
    sharedSocket := shared
    socketLocalAddress := localAddr
    candidates := [localAddr]
    signals := [] }

/-- UDPPort::MaybePrepareStunCandidate (stunport.cc:234-243): with
servers configured it sends binding requests (no state change in this
model); with no servers it runs the completion gate at once. -/
def MaybePrepareStunCandidate (p : UDPPort) : UDPPort :=
  if p.server_addresses_ = ∅ then MaybeSetPortCompleteOrError p else p

/-- The invariant tying ready_ and the signal log to the completion
count: the server set is fixed, ready_ holds exactly when the number of
servers recorded done has reached the server-set size, and exactly one
signal has been emitted when (and only when) ready_ holds. -/
def PortInv (S : Finset ℕ) (p : UDPPort) : Prop :=
  p.server_addresses_ = S ∧
  (p.ready_ = true ↔ S.card ≤ doneCount p) ∧
  p.signals.length = (if p.ready_ then 1 else 0)

lemma maybe_of_ready (p : UDPPort) (h : p.ready_ = true) :
    MaybeSetPortCompleteOrError p = p := by
  simp [MaybeSetPortCompleteOrError, h]

lemma maybe_of_pending (p : UDPPort) (h : p.server_addresses_.card ≠ doneCount p) :
    MaybeSetPortCompleteOrError p = p := by
  simp [MaybeSetPortCompleteOrError, h]

lemma maybe_server_addresses (p : UDPPort) :
    (MaybeSetPortCompleteOrError p).server_addresses_ = p.server_addresses_ := by
  unfold MaybeSetPortCompleteOrError
  split
  · rfl
  · split
    · rfl
    · split <;> rfl

lemma maybe_succeeded (p : UDPPort) :
    (MaybeSetPortCompleteOrError p).bind_request_succeeded_servers_ =
      p.bind_request_succeeded_servers_ := by
  unfold MaybeSetPortCompleteOrError
  split
  · rfl
  · split
    · rfl
    · split <;> rfl

lemma maybe_failed (p : UDPPort) :
    (MaybeSetPortCompleteOrError p).bind_request_failed_servers_ =
      p.bind_request_failed_servers_ := by
  unfold MaybeSetPortCompleteOrError
  split
  · rfl
  · split
    · rfl
    · split <;> rfl

lemma maybe_candidates (p : UDPPort) :
    (MaybeSetPortCompleteOrError p).candidates = p.candidates := by
  unfold MaybeSetPortCompleteOrError
  split
  · rfl
  · split
    · rfl
    · split <;> rfl

lemma maybe_inv (S : Finset ℕ) (p q : UDPPort)
    (hp : PortInv S p)
    (hS : q.server_addresses_ = S)
    (hready : q.ready_ = p.ready_)
    (hsig : q.signals = p.signals)
    (hdone : doneCount q = doneCount p + 1) :
    PortInv S (MaybeSetPortCompleteOrError q) := by
  obtain ⟨hS', hR, hL⟩ := hp
  by_cases hr : q.ready_ = true
  · rw [maybe_of_ready q hr]
    have hpr : p.ready_ = true := by rw [← hready]; exact hr
    refine ⟨hS, ⟨fun _ => ?_, fun _ => hr⟩, ?_⟩
    · have := hR.mp hpr
      omega
    · rw [hsig, hr, hL, hpr]
  · have hq0 : q.ready_ = false := by simpa using hr
    have hpr : p.ready_ = false := by rw [← hready]; exact hq0
    have hplt : ¬ S.card ≤ doneCount p := fun hle => by
      rw [hR.mpr hle] at hpr
      cases hpr
    by_cases he : S.card = doneCount q
    · have hcard : q.server_addresses_.card = doneCount q := by rw [hS]; exact he
      unfold MaybeSetPortCompleteOrError
      rw [if_neg hr, if_neg (not_ne_iff.mpr hcard)]
      split
      · refine ⟨hS, ⟨fun _ => ?_, fun _ => rfl⟩, ?_⟩
        · show S.card ≤ doneCount q
          omega
        · show (q.signals ++ [PortSignal.complete]).length = 1
          rw [hsig]
          simp [hL, hpr]
      · refine ⟨hS, ⟨fun _ => ?_, fun _ => rfl⟩, ?_⟩
        · show S.card ≤ doneCount q
          omega
        · show (q.signals ++ [PortSignal.error]).length = 1
          rw [hsig]
          simp [hL, hpr]
    · have hcard : q.server_addresses_.card ≠ doneCount q := by rw [hS]; exact he
      rw [maybe_of_pending q hcard]
      refine ⟨hS, ⟨fun hc => ?_, fun hle => absurd hle (by omega)⟩, ?_⟩
      · rw [hq0] at hc
        cases hc
      · rw [hsig, hq0, hL, hpr]

lemma inv_bindFailed (S : Finset ℕ) (p : UDPPort) (s : ℕ) (hp : PortInv S p) :
    PortInv S (OnStunBindingOrResolveRequestFailed p s) := by
  unfold OnStunBindingOrResolveRequestFailed
  by_cases hm : s ∈ p.bind_request_failed_servers_
  · rw [if_pos hm]
    exact hp
  · rw [if_neg hm]
    refine maybe_inv S p _ hp hp.1 rfl rfl ?_
    show (insert s p.bind_request_failed_servers_).card +
        p.bind_request_succeeded_servers_.card = doneCount p + 1
    rw [Finset.card_insert_of_not_mem hm]
    unfold doneCount
    omega

lemma inv_succeeded (S : Finset ℕ) (p : UDPPort) (s r : ℕ) (hp : PortInv S p) :
    PortInv S (OnStunBindingRequestSucceeded p s r) := by
  unfold OnStunBindingRequestSucceeded
  by_cases hm : s ∈ p.bind_request_succeeded_servers_
  · rw [if_pos hm]
    exact hp
  · rw [if_neg hm]
    split
    · refine maybe_inv S p _ hp hp.1 rfl rfl ?_
      show p.bind_request_failed_servers_.card +
          (insert s p.bind_request_succeeded_servers_).card = doneCount p + 1
      rw [Finset.card_insert_of_not_mem hm]
      unfold doneCount
      omega
    · refine maybe_inv S p _ hp hp.1 rfl rfl ?_
      show p.bind_request_failed_servers_.card +
          (insert s p.bind_request_succeeded_servers_).card = doneCount p + 1
      rw [Finset.card_insert_of_not_mem hm]
      unfold doneCount
      omega

lemma inv_applyEvent (S : Finset ℕ) (p : UDPPort) (e : StunEvent) (hp : PortInv S p) :
    PortInv S (applyEvent p e) := by
  cases e with
  | succeeded s r => exact inv_succeeded S p s r hp
  | bindFailed s => exact inv_bindFailed S p s hp

lemma inv_runEvents (S : Finset ℕ) (es : List StunEvent) (p : UDPPort) (hp : PortInv S p) :
    PortInv S (runEvents p es) := by
  induction es generalizing p with
  | nil => exact hp
  | cons e es ih => exact ih (applyEvent p e) (inv_applyEvent S p e hp)

lemma inv_init (S : Finset ℕ) (shared : Bool) (localAddr : ℕ) :
    PortInv S (MaybePrepareStunCandidate (initPort S shared localAddr)) := by
  by_cases hS : S = ∅
  · subst hS
    simp [PortInv, MaybePrepareStunCandidate, initPort, MaybeSetPortCompleteOrError,
      doneCount]
  · have hid : MaybePrepareStunCandidate (initPort S shared localAddr) =
        initPort S shared localAddr := by
      simp [MaybePrepareStunCandidate, initPort, hS]
    rw [hid]
    refine ⟨rfl, ⟨(fun hc => Bool.noConfusion hc), fun hle => ?_⟩, rfl⟩
    exact absurd (Finset.card_eq_zero.mp (Nat.le_zero.mp hle)) hS

lemma maybe_of_ready_eq (q : UDPPort) (h : q.ready_ = true) :
    (MaybeSetPortCompleteOrError q).ready_ = true ∧
      (MaybeSetPortCompleteOrError q).signals = q.signals := by
  rw [maybe_of_ready q h]
  exact ⟨h, rfl⟩

lemma applyEvent_of_ready (p : UDPPort) (e : StunEvent) (h : p.ready_ = true) :
    (applyEvent p e).ready_ = true ∧ (applyEvent p e).signals = p.signals := by
  cases e with
  | succeeded s r =>
    simp only [applyEvent]
    unfold OnStunBindingRequestSucceeded
    by_cases hm : s ∈ p.bind_request_succeeded_servers_
    · rw [if_pos hm]
      exact ⟨h, rfl⟩
    · rw [if_neg hm]
      split
      · exact maybe_of_ready_eq _ h
      · exact maybe_of_ready_eq _ h
  | bindFailed s =>
    simp only [applyEvent]
    unfold OnStunBindingOrResolveRequestFailed
    by_cases hm : s ∈ p.bind_request_failed_servers_
    · rw [if_pos hm]
      exact ⟨h, rfl⟩
    · rw [if_neg hm]
      exact maybe_of_ready_eq _ h

/-- The port state reached from a fresh port configured with server set
S after MaybePrepareStunCandidate and an arbitrary sequence of
per-server notifications. -/
def portAfter (S : Finset ℕ) (shared : Bool) (localAddr : ℕ)
    (es : List StunEvent) : UDPPort :=
  runEvents (MaybePrepareStunCandidate (initPort S shared localAddr)) es

/-- C1: for every configured server set S and every arrival order of
per-server success/failure notifications, the port is READY exactly
when the number of servers recorded succeeded plus the number recorded
failed has reached the size of S (so the transition happens at the
first such moment, since each notification grows the count by at most
one), the port has signalled exactly once when ready and never before,
and once ready any further notification leaves the ready flag and the
signal log unchanged. -/
theorem ready_exactly_once (S : Finset ℕ) (shared : Bool) (localAddr : ℕ)
    (es : List StunEvent) :
    ((portAfter S shared localAddr es).ready_ = true ↔
      S.card ≤ doneCount (portAfter S shared localAddr es)) ∧
    (portAfter S shared localAddr es).signals.length =
      (if (portAfter S shared localAddr es).ready_ then 1 else 0) ∧
    ∀ e : StunEvent, (portAfter S shared localAddr es).ready_ = true →
      (applyEvent (portAfter S shared localAddr es) e).ready_ = true ∧
      (applyEvent (portAfter S shared localAddr es) e).signals =
        (portAfter S shared localAddr es).signals := by
  have hinv : PortInv S (portAfter S shared localAddr es) :=
    inv_runEvents S es _ (inv_init S shared localAddr)
  exact ⟨hinv.2.1, hinv.2.2,
    fun e h => applyEvent_of_ready (portAfter S shared localAddr es) e h⟩

/-- Witness for C1 at a concrete run: one server, its failure
notification delivered, then a stray further notification. -/
theorem ready_exactly_once_witness :
    (portAfter {3} false 0 [StunEvent.bindFailed 3]).ready_ = true ∧
    (applyEvent (portAfter {3} false 0 [StunEvent.bindFailed 3])
        (StunEvent.bindFailed 7)).signals =
      (portAfter {3} false 0 [StunEvent.bindFailed 3]).signals := by
  have h : (portAfter {3} false 0 [StunEvent.bindFailed 3]).ready_ = true := by decide
  exact ⟨h,
    ((ready_exactly_once {3} false 0 [StunEvent.bindFailed 3]).2.2
      (StunEvent.bindFailed 7) h).2⟩

/-- C2: when the completion gate fires (ready_ still false and every
configured server recorded success or failure), exactly one signal is
appended, and it is SignalPortComplete precisely when the server set is
empty, or some server's bind request succeeded, or the socket is
shared; in every other case it is SignalPortError. -/
theorem complete_iff_success_or_empty_or_shared (p : UDPPort)
    (h1 : p.ready_ = false)
    (h2 : p.server_addresses_.card = doneCount p) :
    ((MaybeSetPortCompleteOrError p).signals = p.signals ++ [PortSignal.complete] ∨
      (MaybeSetPortCompleteOrError p).signals = p.signals ++ [PortSignal.error]) ∧
    ((MaybeSetPortCompleteOrError p).signals = p.signals ++ [PortSignal.complete] ↔
      (p.server_addresses_ = ∅ ∨ 0 < p.bind_request_succeeded_servers_.card ∨
        p.sharedSocket = true)) ∧
    (MaybeSetPortCompleteOrError p).ready_ = true := by
  unfold MaybeSetPortCompleteOrError
  rw [if_neg (by simp [h1]), if_neg (not_ne_iff.mpr h2)]
  split
  · refine ⟨Or.inl rfl, ⟨fun _ => by assumption, fun _ => rfl⟩, rfl⟩
  · refine ⟨Or.inr rfl, ⟨fun hx => ?_, fun hx => absurd hx (by assumption)⟩, rfl⟩
    have hlen := List.append_inj_right hx rfl
    simp at hlen

/-- Witness for C2: a port with one configured server that failed and a
non-shared socket emits SignalPortError. -/
theorem complete_iff_witness :
    (MaybeSetPortCompleteOrError
        { server_addresses_ := {3}
          bind_request_succeeded_servers_ := ∅
          bind_request_failed_servers_ := {3}
          ready_ := false
          sharedSocket := false
          socketLocalAddress := 0
          candidates := [0]
          signals := [] }).signals = [PortSignal.error] := by
  have h := complete_iff_success_or_empty_or_shared
    { server_addresses_ := {3}
      bind_request_succeeded_servers_ := ∅
      bind_request_failed_servers_ := {3}
      ready_ := false
      sharedSocket := false
      socketLocalAddress := 0
      candidates := [0]
      signals := [] } rfl (by decide)
  rcases h.1 with hc | he
  · exact absurd (h.2.1.mp hc) (by decide)
  · exact he

/-- C5: only the first binding success for a given STUN server has any
effect (a repeated success leaves the whole port state unchanged); on
the first success the server is recorded as succeeded, and a
server-reflexive candidate is appended if and only if the socket is
not shared or the reflexive address differs from the local socket
address; when the socket is shared and the reflexive address equals
the local address no candidate is added, yet the server still counts
toward completion. -/
theorem binding_success_dedup_and_candidate (p : UDPPort) (s r : ℕ) :
    (s ∈ p.bind_request_succeeded_servers_ → OnStunBindingRequestSucceeded p s r = p) ∧
    (s ∉ p.bind_request_succeeded_servers_ →
      (OnStunBindingRequestSucceeded p s r).bind_request_succeeded_servers_ =
        insert s p.bind_request_succeeded_servers_ ∧
      ((OnStunBindingRequestSucceeded p s r).candidates = p.candidates ++ [r] ↔
        (¬ p.sharedSocket = true ∨ r ≠ p.socketLocalAddress)) ∧
      (p.sharedSocket = true ∧ r = p.socketLocalAddress →
        (OnStunBindingRequestSucceeded p s r).candidates = p.candidates)) := by
  constructor
  · intro hm
    unfold OnStunBindingRequestSucceeded
    rw [if_pos hm]
  · intro hm
    unfold OnStunBindingRequestSucceeded
    rw [if_neg hm]
    by_cases hc : ¬ p.sharedSocket = true ∨ r ≠ p.socketLocalAddress
    · rw [if_pos hc]
      refine ⟨?_, ⟨fun _ => hc, fun _ => ?_⟩, fun hpair => ?_⟩
      · rw [maybe_succeeded]
      · rw [maybe_candidates]
      · rcases hc with hns | hne
        · exact absurd hpair.1 hns
        · exact absurd hpair.2 hne
    · rw [if_neg hc]
      refine ⟨?_, ⟨fun hx => absurd ?_ hc, fun hx => absurd hx hc⟩, fun _ => ?_⟩
      · rw [maybe_succeeded]
      · rw [maybe_candidates] at hx
        exact absurd hx (by simp)
      · rw [maybe_candidates]

/-- Witness for C5: with a shared socket and a reflexive address equal
to the local address, the first success adds no candidate but records
the server. -/
theorem binding_success_dedup_witness :
    (OnStunBindingRequestSucceeded
        { server_addresses_ := {3, 4}
          bind_request_succeeded_servers_ := ∅
          bind_request_failed_servers_ := ∅
          ready_ := false
          sharedSocket := true
          socketLocalAddress := 5
          candidates := [5]
          signals := [] } 3 5).bind_request_succeeded_servers_ = {3} ∧
    (OnStunBindingRequestSucceeded
        { server_addresses_ := {3, 4}
          bind_request_succeeded_servers_ := ∅
          bind_request_failed_servers_ := ∅
          ready_ := false
          sharedSocket := true
          socketLocalAddress := 5
          candidates := [5]
          signals := [] } 3 5).candidates = [5] := by
  have h := (binding_success_dedup_and_candidate
    { server_addresses_ := {3, 4}
      bind_request_succeeded_servers_ := ∅
      bind_request_failed_servers_ := ∅
      ready_ := false
      sharedSocket := true
      socketLocalAddress := 5
      candidates := [5]
      signals := [] } 3 5).2 (by decide)
  exact ⟨h.1, h.2.2 ⟨rfl, rfl⟩⟩

/-- KEEPALIVE_DELAY (stunport.cc:40): 10 seconds, in milliseconds; the
constructor default of UDPPort's stun_keepalive_delay_. -/
def KEEPALIVE_DELAY : ℕ := 10 * 1000

/-- RETRY_DELAY (stunport.cc:41): 50 ms, from the ICE spec. -/
def RETRY_DELAY : ℕ := 50

/-- RETRY_TIMEOUT (stunport.cc:42): total retry budget, 50 seconds. -/
def RETRY_TIMEOUT : ℕ := 50 * 1000

/-- A StunBindingRequest's fields relevant to rescheduling: the
keep-alive flag and the construction time (talk_base::Time at the
constructor). -/
structure StunBindingRequest where
  keep_alive_ : Bool
  start_time_ : ℕ

/-- talk_base::TimeSince(start) at the current time now. -/
def TimeSince (now start : ℕ) : ℕ := now - start

/-- StunBindingRequest::OnTimeout (stunport.cc:105-118): SendDelayed a
fresh keep-alive request with delay RETRY_DELAY only while keep_alive_
holds and the elapsed time since start is within RETRY_TIMEOUT; the
returned value is the delay of the rescheduled request, none when no
request is scheduled. -/
def OnTimeoutReschedule (req : StunBindingRequest) (now : ℕ) : Option ℕ :=
  if req.keep_alive_ ∧ TimeSince now req.start_time_ ≤ RETRY_TIMEOUT then
    some RETRY_DELAY
  else none

/-- StunBindingRequest::OnErrorResponse (stunport.cc:84-103): same
guard as OnTimeout, but the rescheduled request uses the port's
stun_keepalive_delay. -/
def OnErrorResponseReschedule (req : StunBindingRequest)
    (now stun_keepalive_delay : ℕ) : Option ℕ :=
  if req.keep_alive_ ∧ TimeSince now req.start_time_ ≤ RETRY_TIMEOUT then
    some stun_keepalive_delay
  else none

/-- StunBindingRequest::OnResponse (stunport.cc:62-82): a keep-alive
is rescheduled whenever keep_alive_ holds, with the port's
stun_keepalive_delay. -/
def OnResponseReschedule (req : StunBindingRequest)
    (stun_keepalive_delay : ℕ) : Option ℕ :=
  if req.keep_alive_ then some stun_keepalive_delay else none

/-- C6: for a keep-alive binding request, the error-response and
timeout handlers reschedule only while the elapsed time since the
request's start is at most the 50 s retry budget RETRY_TIMEOUT, and
never after it is exceeded; the timeout path uses the 50 ms
RETRY_DELAY, the response paths the 10 s KEEPALIVE_DELAY (the port's
default stun_keepalive_delay). -/
theorem keepalive_retry_budget (req : StunBindingRequest) (now : ℕ)
    (hk : req.keep_alive_ = true) :
    (RETRY_TIMEOUT < TimeSince now req.start_time_ →
      OnTimeoutReschedule req now = none ∧
      OnErrorResponseReschedule req now KEEPALIVE_DELAY = none) ∧
    (TimeSince now req.start_time_ ≤ RETRY_TIMEOUT →
      OnTimeoutReschedule req now = some RETRY_DELAY ∧
      OnErrorResponseReschedule req now KEEPALIVE_DELAY = some KEEPALIVE_DELAY) ∧
    OnResponseReschedule req KEEPALIVE_DELAY = some KEEPALIVE_DELAY := by
  refine ⟨fun hgt => ?_, fun hle => ?_, ?_⟩
  · have hn : ¬ (req.keep_alive_ = true ∧
        TimeSince now req.start_time_ ≤ RETRY_TIMEOUT) :=
      fun hcon => absurd hcon.2 (Nat.not_le.mpr hgt)
    constructor
    · unfold OnTimeoutReschedule
      rw [if_neg hn]
    · unfold OnErrorResponseReschedule
      rw [if_neg hn]
  · constructor
    · unfold OnTimeoutReschedule
      rw [if_pos ⟨hk, hle⟩]
    · unfold OnErrorResponseReschedule
      rw [if_pos ⟨hk, hle⟩]
  · unfold OnResponseReschedule
    rw [if_pos hk]

/-- Witness for C6: a request started at time 0, once past the budget
at 60 s (no rescheduling) and once within it at 30 s. -/
theorem keepalive_retry_budget_witness :
    OnTimeoutReschedule ⟨true, 0⟩ 60000 = none ∧
    OnTimeoutReschedule ⟨true, 0⟩ 30000 = some RETRY_DELAY ∧
    OnErrorResponseReschedule ⟨true, 0⟩ 30000 KEEPALIVE_DELAY =
      some KEEPALIVE_DELAY :=
  ⟨((keepalive_retry_budget ⟨true, 0⟩ 60000 rfl).1 (by decide)).1,
   ((keepalive_retry_budget ⟨true, 0⟩ 30000 rfl).2.1 (by decide)).1,
   ((keepalive_retry_budget ⟨true, 0⟩ 30000 rfl).2.1 (by decide)).2⟩

/-- UDPPort::AddressResolver state: the domain of the resolvers_ map
from input address to the async resolver created for it, together with
the number of resolvers created through the socket factory (resolver
objects are opaque, so they are identified by creation count). -/
structure AddressResolver where
  resolvers_ : Finset ℕ
  created : ℕ
deriving DecidableEq

/-- UDPPort::AddressResolver::Resolve (stunport.cc:138-153): an early
return when the address is already in resolvers_; otherwise one
resolver is created and the address inserted into the map. -/
def Resolve (ar : AddressResolver) (address : ℕ) : AddressResolver :=
  if address ∈ ar.resolvers_ then ar
  else { resolvers_ := insert address ar.resolvers_, created := ar.created + 1 }

/-- C7: Resolve is idempotent per address: when a resolution for the
address is already in flight the call changes nothing (no resolver is
created, the map is unchanged), and in particular a repeated Resolve
of the same address equals a single one. -/
theorem resolve_idempotent (ar : AddressResolver) (address : ℕ) :
    (address ∈ ar.resolvers_ → Resolve ar address = ar) ∧
    Resolve (Resolve ar address) address = Resolve ar address := by
  have hnoop : ∀ b : AddressResolver, address ∈ b.resolvers_ →
      Resolve b address = b := by
    intro b hm
    unfold Resolve
    rw [if_pos hm]
  refine ⟨hnoop ar, hnoop _ ?_⟩
  unfold Resolve
  split
  · assumption
  · exact Finset.mem_insert_self address ar.resolvers_

/-- Witness for C7: an address already resolving is left untouched. -/
theorem resolve_idempotent_witness :
    Resolve { resolvers_ := {2}, created := 1 } 2 =
      { resolvers_ := {2}, created := 1 } :=
  (resolve_idempotent { resolvers_ := {2}, created := 1 } 2).1 (by decide)

/-- UDPPort::OnResolveResult (stunport.cc:344-363): on error or failed
lookup (resolved = none) the input is recorded as failed; on success
the unresolved input is erased from server_addresses_ and, only when
the resolved address is not already present, it is inserted and
SendStunBindingRequest is invoked for it (the returned Bool). -/
def OnResolveResult (p : UDPPort) (input : ℕ) (error : ℕ)
    (resolved : Option ℕ) : UDPPort × Bool :=
  match resolved with
  | none => (OnStunBindingOrResolveRequestFailed p input, false)
  | some r =>
      if error ≠ 0 then (OnStunBindingOrResolveRequestFailed p input, false)
      else if r ∈ p.server_addresses_.erase input then
        ({ p with server_addresses_ := p.server_addresses_.erase input }, false)
      else
        ({ p with
            server_addresses_ := insert r (p.server_addresses_.erase input) },
          true)

/-- C10: for an unresolved input address in server_addresses_ that
successfully resolves, when the resolved address is already another
member of the set the input is removed, no binding request is sent and
the server count shrinks by one; when the resolved address is new it
replaces the input (set size unchanged) and a binding request is
sent. -/
theorem resolve_result_shrink_or_replace (p : UDPPort) (input r : ℕ)
    (hin : input ∈ p.server_addresses_) :
    ((r ∈ p.server_addresses_ ∧ r ≠ input) →
      (OnResolveResult p input 0 (some r)).1.server_addresses_ =
        p.server_addresses_.erase input ∧
      (OnResolveResult p input 0 (some r)).2 = false ∧
      (OnResolveResult p input 0 (some r)).1.server_addresses_.card + 1 =
        p.server_addresses_.card) ∧
    (r ∉ p.server_addresses_ →
      (OnResolveResult p input 0 (some r)).1.server_addresses_ =
        insert r (p.server_addresses_.erase input) ∧
      (OnResolveResult p input 0 (some r)).2 = true ∧
      (OnResolveResult p input 0 (some r)).1.server_addresses_.card =
        p.server_addresses_.card) := by
  have hpos : 0 < p.server_addresses_.card := Finset.card_pos.mpr ⟨input, hin⟩
  constructor
  · rintro ⟨hr, hne⟩
    have hmem : r ∈ p.server_addresses_.erase input :=
      Finset.mem_erase.mpr ⟨hne, hr⟩
    simp only [OnResolveResult]
    rw [if_neg (by decide), if_pos hmem]
    refine ⟨rfl, rfl, ?_⟩
    show (p.server_addresses_.erase input).card + 1 = p.server_addresses_.card
    rw [Finset.card_erase_of_mem hin]
    omega
  · intro hr
    have hmem : r ∉ p.server_addresses_.erase input :=
      fun hc => hr (Finset.mem_of_mem_erase hc)
    simp only [OnResolveResult]
    rw [if_neg (by decide), if_neg hmem]
    refine ⟨rfl, rfl, ?_⟩
    show (insert r (p.server_addresses_.erase input)).card =
      p.server_addresses_.card
    rw [Finset.card_insert_of_not_mem hmem, Finset.card_erase_of_mem hin]
    omega

/-- Witness for C10: server set containing the hostname 1 and the
address 2; input 1 resolving to the already-present 2 shrinks the set,
input 1 resolving to the fresh 3 keeps its size and sends. -/
theorem resolve_result_shrink_or_replace_witness :
    (OnResolveResult
        { server_addresses_ := {1, 2}
          bind_request_succeeded_servers_ := ∅
          bind_request_failed_servers_ := ∅
          ready_ := false
          sharedSocket := false
          socketLocalAddress := 0
          candidates := [0]
          signals := [] } 1 0 (some 2)).1.server_addresses_.card + 1 = 2 ∧
    (OnResolveResult
        { server_addresses_ := {1, 2}
          bind_request_succeeded_servers_ := ∅
          bind_request_failed_servers_ := ∅
          ready_ := false
          sharedSocket := false
          socketLocalAddress := 0
          candidates := [0]
          signals := [] } 1 0 (some 3)).2 = true := by
  have h := resolve_result_shrink_or_replace
    { server_addresses_ := {1, 2}
      bind_request_succeeded_servers_ := ∅
      bind_request_failed_servers_ := ∅
      ready_ := false
      sharedSocket := false
      socketLocalAddress := 0
      candidates := [0]
      signals := [] } 1 2 (by decide)
  have h3 := resolve_result_shrink_or_replace
    { server_addresses_ := {1, 2}
      bind_request_succeeded_servers_ := ∅
      bind_request_failed_servers_ := ∅
      ready_ := false
      sharedSocket := false
      socketLocalAddress := 0
      candidates := [0]
      signals := [] } 1 3 (by decide)
  exact ⟨(h.1 (by decide)).2.2, (h3.2 (by decide)).2.1⟩

end StunPort

namespace Transport

/-- cricket::IceRole: ICEROLE_CONTROLLING or ICEROLE_CONTROLLED. -/
inductive IceRole
  | controlling
  | controlled
deriving DecidableEq

/-- cricket::IceMode: ICEMODE_FULL or ICEMODE_LITE. -/
inductive IceMode
  | full
  | lite
deriving DecidableEq

/-- Modelled from the spec: cricket::IceCredentialsChanged, whose
implementation (transport.cc) is not under src — only its unit test
TestIceCredentialsChanged is. Spec: true iff the old and new
(ufrag, pwd) pairs differ in at least one field. -/
def IceCredentialsChanged (old_ufrag old_pwd new_ufrag new_pwd : String) : Bool :=
  old_ufrag != new_ufrag || old_pwd != new_pwd

/-- C4: IceCredentialsChanged is true exactly when the ufrag or the
pwd differs, and in particular is false on identical pairs. -/
theorem ice_credentials_changed_iff (u1 p1 u2 p2 : String) :
    (IceCredentialsChanged u1 p1 u2 p2 = true ↔ (u1 ≠ u2 ∨ p1 ≠ p2)) ∧
    IceCredentialsChanged u1 p1 u1 p1 = false := by
  constructor
  · simp [IceCredentialsChanged]
  · simp [IceCredentialsChanged]

/-- Modelled from the spec: the Transport role/credential state
relevant to ICE restart handling; transport.cc is not under src (only
transport_unittest.cc is). Fields: current ICE role, the committed
local ice-ufrag/pwd, whether local and remote descriptions have been
applied, and the remote description's ice-mode. -/
structure TransportState where
  ice_role_ : IceRole
  local_ufrag : String
  local_pwd : String
  has_local_desc : Bool
  has_remote_desc : Bool
  remote_ice_mode : IceMode
deriving DecidableEq

/-- Modelled from the spec: the role handling of
Transport::SetLocalTransportDescription (transport.cc missing from
src). A new local description whose credentials differ from the
committed local ones while a remote description exists flips the role,
except that a LITE remote pins the full side to CONTROLLING; the new
credentials are then committed. -/
def SetLocalTransportDescription (t : TransportState)
    (ufrag pwd : String) : TransportState :=
  let role :=
    if t.has_local_desc && t.has_remote_desc &&
        IceCredentialsChanged t.local_ufrag t.local_pwd ufrag pwd then
      if t.remote_ice_mode = IceMode.lite then IceRole.controlling
      else
        match t.ice_role_ with
        | IceRole.controlling => IceRole.controlled
        | IceRole.controlled => IceRole.controlling
    else t.ice_role_
  { t with
      ice_role_ := role
      local_ufrag := ufrag
      local_pwd := pwd
      has_local_desc := true }

/-- C3: with a remote description committed, applying a local
description with changed credentials flips the role — CONTROLLED
becomes CONTROLLING, CONTROLLING becomes CONTROLLED — except that a
LITE remote leaves the transport CONTROLLING. -/
theorem ice_restart_flips_role (t : TransportState) (ufrag pwd : String)
    (hl : t.has_local_desc = true) (hr : t.has_remote_desc = true)
    (hc : IceCredentialsChanged t.local_ufrag t.local_pwd ufrag pwd = true) :
    (t.remote_ice_mode = IceMode.lite →
      (SetLocalTransportDescription t ufrag pwd).ice_role_ = IceRole.controlling) ∧
    (t.remote_ice_mode ≠ IceMode.lite →
      (t.ice_role_ = IceRole.controlled →
        (SetLocalTransportDescription t ufrag pwd).ice_role_ =
          IceRole.controlling) ∧
      (t.ice_role_ = IceRole.controlling →
        (SetLocalTransportDescription t ufrag pwd).ice_role_ =
          IceRole.controlled)) := by
  constructor
  · intro hm
    simp [SetLocalTransportDescription, hl, hr, hc, hm]
  · intro hm
    constructor
    · intro hrole
      simp [SetLocalTransportDescription, hl, hr, hc, hm, hrole]
    · intro hrole
      simp [SetLocalTransportDescription, hl, hr, hc, hm, hrole]

/-- Witness for C3: a CONTROLLED callee with a FULL remote becomes
CONTROLLING on locally-triggered restart; a CONTROLLING side with a
LITE remote stays CONTROLLING. -/
theorem ice_restart_flips_role_witness :
    (SetLocalTransportDescription
        ⟨IceRole.controlled, "u1", "p1", true, true, IceMode.full⟩
        "u2" "p2").ice_role_ = IceRole.controlling ∧
    (SetLocalTransportDescription
        ⟨IceRole.controlling, "u1", "p1", true, true, IceMode.lite⟩
        "u2" "p2").ice_role_ = IceRole.controlling :=
  ⟨((ice_restart_flips_role
      ⟨IceRole.controlled, "u1", "p1", true, true, IceMode.full⟩
      "u2" "p2" rfl rfl (by decide)).2 (by decide)).1 rfl,
   (ice_restart_flips_role
      ⟨IceRole.controlling, "u1", "p1", true, true, IceMode.lite⟩
      "u2" "p2" rfl rfl (by decide)).1 rfl⟩

/-- Modelled from the spec: the owning thread's pending-post window for
a Transport's asynchronous connecting notification (transport.cc
missing from src). ConnectChannels posts the notification;
DestroyAllChannels synchronously invalidates pending posts;
ProcessMessages delivers a still-valid pending post by firing
SignalConnecting. -/
structure TransportPost where
  pending_connecting_post : Bool
  connecting_signalled : Bool
deriving DecidableEq

/-- Modelled from the spec: ConnectChannels posts the asynchronous
connecting notification to the owning thread. -/
def ConnectChannels (t : TransportPost) : TransportPost :=
  { t with pending_connecting_post := true }

/-- Modelled from the spec: DestroyAllChannels synchronously
invalidates any pending posted event of the transport. -/
def DestroyAllChannels (t : TransportPost) : TransportPost :=
  { t with pending_connecting_post := false }

/-- Modelled from the spec: the owning thread processing its message
queue fires SignalConnecting for a still-pending post. -/
def ProcessMessages (t : TransportPost) : TransportPost :=
  if t.pending_connecting_post then
    { pending_connecting_post := false, connecting_signalled := true }
  else t

/-- C8: destroying all channels between the post and its processing
invalidates the pending connecting notification, so processing the
queue never fires the signal; without the destruction the same
processing does fire it. -/
theorem destroy_clears_pending_post (t : TransportPost) :
    (ProcessMessages (DestroyAllChannels (ConnectChannels t))).connecting_signalled
      = t.connecting_signalled ∧
    (ProcessMessages (ConnectChannels t)).connecting_signalled = true := by
  constructor
  · simp [ProcessMessages, DestroyAllChannels, ConnectChannels]
  · simp [ProcessMessages, ConnectChannels]

/-- Modelled from the spec: a transport channel's connectivity state
(FakeTransportChannel and the aggregation in transport.cc are missing
from src): writable flag, candidate-allocation-done flag, and the
number of surviving connections. -/
structure TransportChannelState where
  writable : Bool
  allocation_done : Bool
  connection_count : ℕ
deriving DecidableEq

/-- Modelled from the spec: a channel is completed when it is writable,
candidate allocation is done, and exactly one connection survives. -/
def channelCompleted (c : TransportChannelState) : Bool :=
  c.writable && c.allocation_done && (c.connection_count == 1)

/-- The pair of edge-triggered transport signals emitted by one state
change: SignalCompleted and SignalFailed. -/
structure EmittedSignals where
  completed : Bool
  failed : Bool
deriving DecidableEq

/-- Modelled from the spec: SetConnectionCount updates the count;
SignalCompleted fires on the edge into the completed state and
SignalFailed fires when the viable connection count drops to zero. -/
def SetConnectionCount (c : TransportChannelState) (n : ℕ) :
    TransportChannelState × EmittedSignals :=
  ({ c with connection_count := n },
   { completed := channelCompleted { c with connection_count := n } &&
       !(channelCompleted c),
     failed := (n == 0) && !(c.connection_count == 0) })

/-- Modelled from the spec: SetWritable updates writability and can
only produce the completed edge. -/
def SetWritable (c : TransportChannelState) (w : Bool) :
    TransportChannelState × EmittedSignals :=
  ({ c with writable := w },
   { completed := channelCompleted { c with writable := w } &&
       !(channelCompleted c),
     failed := false })

/-- C9: on a channel with candidate allocation done, becoming writable
at connection count 2 fires neither COMPLETED nor FAILED; dropping the
count to 1 fires COMPLETED (and only on that edge: repeating count 1
fires nothing, so it fires exactly once); dropping the count to 0
fires FAILED and not COMPLETED. -/
theorem completed_then_failed_trace :
    (SetWritable ⟨false, true, 2⟩ true).1 = ⟨true, true, 2⟩ ∧
    (SetWritable ⟨false, true, 2⟩ true).2 = ⟨false, false⟩ ∧
    (SetConnectionCount ⟨true, true, 2⟩ 1).1 = ⟨true, true, 1⟩ ∧
    (SetConnectionCount ⟨true, true, 2⟩ 1).2 = ⟨true, false⟩ ∧
    (SetConnectionCount ⟨true, true, 1⟩ 1).2 = ⟨false, false⟩ ∧
    (SetConnectionCount ⟨true, true, 1⟩ 0).2 = ⟨false, true⟩ := by
  decide

end Transport
